import Mathlib

/-!
Verification of the coordinate-normalization and screen-observation subsystem
of the `use-phone-skill` repository (src/scripts/phone_view.py and
src/scripts/phone_control.py), as a shallow embedding in Lean 4.

Modelling conventions:
* Python integers are `Int` (arbitrary precision); values produced by the
  `\d+` regex groups or PIL image sizes are `Nat` (they are decimal-digit
  matches, hence nonnegative).
* Python evaluates `int(rel_x / 1000 * screen_width)` in binary floating
  point and truncates toward zero.  All quantities involved are nonnegative
  after the preceding clamps, so the truncation is a floor; the model uses
  exact integer floor division (`Int` Euclidean division, which agrees with
  floor on the nonnegative operands that arise for the positive screen
  dimensions used throughout).
* Fallible external calls (subprocess invocation that can raise, e.g.
  `FileNotFoundError` from a missing `adb` binary) are modelled with
  `Except Unit`; an uncaught Python exception is `.error ()`.
* Regular-expression searches over command output are abstracted as the
  `Option` of the captured groups: `none` means the pattern did not match
  the produced stdout, `some g` means it matched with groups `g`.
-/

namespace PhoneSkill

/-! ## CoordinateMapper — src/scripts/phone_view.py lines 166-252 -/

/-- `convert_relative_to_absolute` (phone_view.py lines 166-187): clamp each
relative coordinate to [0, 999], then `abs = int(rel / 1000 * dim)`,
modelled as exact floor division `rel * dim / 1000`. -/
def convert_relative_to_absolute (rel_x rel_y screen_width screen_height : Int) :
    Int × Int :=
  let rx := max 0 (min 999 rel_x)
  let ry := max 0 (min 999 rel_y)
  (rx * screen_width / 1000, ry * screen_height / 1000)

/-- `convert_absolute_to_relative` (phone_view.py lines 190-211): clamp each
absolute coordinate to [0, dim-1], then `rel = int(abs * 1000 / dim)`,
modelled as exact floor division. -/
def convert_absolute_to_relative (abs_x abs_y screen_width screen_height : Int) :
    Int × Int :=
  let ax := max 0 (min (screen_width - 1) abs_x)
  let ay := max 0 (min (screen_height - 1) abs_y)
  (ax * 1000 / screen_width, ay * 1000 / screen_height)

/-- The soft-boundary advisory messages of `validate_coordinates`
(phone_view.py lines 233-245).  Python computes the margins as floats
(`width * 0.05`, `height * 0.1`); they are modelled exactly in `ℚ`.
The messages are printed to stderr and never influence the returned triple. -/
def validate_warnings (x y screen_width screen_height : Int) : List String :=
  let safe_margin_x : ℚ := (screen_width : ℚ) * (5 / 100)
  let safe_margin_y_top : ℚ := (screen_height : ℚ) * (1 / 10)
  let safe_margin_y_bottom : ℚ := (screen_height : ℚ) * (1 / 10)
  (if (x : ℚ) < safe_margin_x ∨ (x : ℚ) > (screen_width : ℚ) - safe_margin_x
    then [s!"X坐标接近屏幕边缘: {x}"] else []) ++
  (if (y : ℚ) < safe_margin_y_top
    then [s!"Y坐标接近状态栏区域: {y}"] else []) ++
  (if (y : ℚ) > (screen_height : ℚ) - safe_margin_y_bottom
    then [s!"Y坐标接近导航栏区域: {y}"] else [])

/-- `validate_coordinates` (phone_view.py lines 214-252): hard clamp to
`[0, width-1] × [0, height-1]`; `was_corrected` records whether the clamp
changed a component.  Soft-margin advisories are computed (and printed)
but do not affect the returned triple. -/
def validate_coordinates (x y screen_width screen_height : Int) :
    Int × Int × Bool :=
  let valid_x := max 0 (min (screen_width - 1) x)
  let valid_y := max 0 (min (screen_height - 1) y)
  let _warnings := validate_warnings x y screen_width screen_height
  let was_corrected := decide (x ≠ valid_x ∨ y ≠ valid_y)
  (valid_x, valid_y, was_corrected)

/-! ### Arithmetic helper lemmas for the conversion pair -/

/-- The first component of `convert_relative_to_absolute` lies in
`[0, width - 1]` whenever `0 < width` (and symmetrically for the second). -/
lemma rel_to_abs_axis_bounds (r W : Int) (hW : 0 < W) :
    0 ≤ max 0 (min 999 r) * W / 1000 ∧ max 0 (min 999 r) * W / 1000 ≤ W - 1 := by
  set c := max 0 (min 999 r) with hc
  have hc0 : 0 ≤ c := le_max_left 0 _
  have hc9 : c ≤ 999 := by omega
  constructor
  · exact Int.ediv_nonneg (mul_nonneg hc0 hW.le) (by norm_num)
  · have hlt : c * W / 1000 < W := by
      rw [Int.ediv_lt_iff_lt_mul (by norm_num : (0 : Int) < 1000)]
      have h1 : c * W ≤ 999 * W := mul_le_mul_of_nonneg_right hc9 hW.le
      have h2 : 999 * W < 1000 * W :=
        mul_lt_mul_of_pos_right (by norm_num) hW
      calc c * W ≤ 999 * W := h1
        _ < 1000 * W := h2
        _ = W * 1000 := mul_comm _ _
    omega

/-- One axis of the round trip relative → absolute → relative: for a relative
input already in `[0, 999]` and a dimension `W ≥ 1000`, converting to absolute
and back recovers the input up to one unit (and never overshoots it). -/
lemma axis_round_trip (r W : Int) (hr0 : 0 ≤ r) (hr9 : r ≤ 999)
    (hW : 1000 ≤ W) :
    r - 1 ≤ max 0 (min (W - 1) (r * W / 1000)) * 1000 / W ∧
      max 0 (min (W - 1) (r * W / 1000)) * 1000 / W ≤ r := by
  have hWpos : (0 : Int) < W := by omega
  have hbounds := rel_to_abs_axis_bounds r W hWpos
  have hclamp : max 0 (min 999 r) = r := by omega
  rw [hclamp] at hbounds
  have hnoop : max 0 (min (W - 1) (r * W / 1000)) = r * W / 1000 := by omega
  rw [hnoop]
  set a := r * W / 1000 with ha
  set m := r * W % 1000 with hm
  have hsplit : 1000 * a + m = r * W := Int.ediv_add_emod (r * W) 1000
  have hm0 : 0 ≤ m := Int.emod_nonneg (r * W) (by norm_num)
  have hm9 : m < 1000 := Int.emod_lt_of_pos (r * W) (by norm_num)
  constructor
  · have hle : (r - 1) * W ≤ a * 1000 := by nlinarith
    have := Int.ediv_le_ediv hWpos hle
    rwa [Int.mul_ediv_cancel _ (by omega : W ≠ 0)] at this
  · have hle : a * 1000 ≤ r * W := by nlinarith
    have := Int.ediv_le_ediv hWpos hle
    rwa [Int.mul_ediv_cancel _ (by omega : W ≠ 0)] at this

/-! ### Claims C1, C8, C9 -/

/-- Claim C1, counterexample: with `width = height = 1` (which satisfies the
claim's `width, height > 0`) and relative input `(999, 999)`, the relative →
absolute → relative round trip lands on `(0, 0)`, a full 999 units away from
the original — the "within 1 unit" bound is false as stated. -/
theorem c1_counterexample :
    convert_relative_to_absolute 999 999 1 1 = (0, 0) ∧
    convert_absolute_to_relative 0 0 1 1 = (0, 0) ∧
    ¬ (|(convert_absolute_to_relative
          (convert_relative_to_absolute 999 999 1 1).1
          (convert_relative_to_absolute 999 999 1 1).2 1 1).1 - 999| ≤ 1) := by
  decide

/-- Claim C1 (amended): for relative inputs in `[0, 999]` and screen
dimensions of at least 1000 pixels per axis (rather than merely positive
ones), the relative → absolute → relative round trip is within one unit of
the original in each component. -/
theorem c1_round_trip (relX relY W H : Int)
    (hx0 : 0 ≤ relX) (hx9 : relX ≤ 999) (hy0 : 0 ≤ relY) (hy9 : relY ≤ 999)
    (hW : 1000 ≤ W) (hH : 1000 ≤ H) :
    |(convert_absolute_to_relative
        (convert_relative_to_absolute relX relY W H).1
        (convert_relative_to_absolute relX relY W H).2 W H).1 - relX| ≤ 1 ∧
    |(convert_absolute_to_relative
        (convert_relative_to_absolute relX relY W H).1
        (convert_relative_to_absolute relX relY W H).2 W H).2 - relY| ≤ 1 := by
  have hclx : max 0 (min 999 relX) = relX := by omega
  have hcly : max 0 (min 999 relY) = relY := by omega
  have hx := axis_round_trip relX W hx0 hx9 hW
  have hy := axis_round_trip relY H hy0 hy9 hH
  simp only [convert_relative_to_absolute, convert_absolute_to_relative,
    hclx, hcly] at *
  constructor
  · rw [abs_le]; omega
  · rw [abs_le]; omega

/-- Claim C1 witness: the amended round-trip bound instantiated at
`relX = 123`, `relY = 998`, `width = 1080`, `height = 2400`. -/
theorem c1_round_trip_witness :
    (0 ≤ (123 : Int) ∧ (123 : Int) ≤ 999 ∧ 0 ≤ (998 : Int) ∧
      (998 : Int) ≤ 999 ∧ 1000 ≤ (1080 : Int) ∧ 1000 ≤ (2400 : Int)) ∧
    (|(convert_absolute_to_relative
        (convert_relative_to_absolute 123 998 1080 2400).1
        (convert_relative_to_absolute 123 998 1080 2400).2 1080 2400).1 - 123| ≤ 1 ∧
     |(convert_absolute_to_relative
        (convert_relative_to_absolute 123 998 1080 2400).1
        (convert_relative_to_absolute 123 998 1080 2400).2 1080 2400).2 - 998| ≤ 1) :=
  ⟨by decide,
   c1_round_trip 123 998 1080 2400 (by decide) (by decide) (by decide)
     (by decide) (by decide) (by decide)⟩

/-- Claim C8: `convert_relative_to_absolute` clamps first and then floors
`rel * dim / 1000`; its output lies in `[0, width-1] × [0, height-1]` for all
positive dimensions, maps `(0,0)` to `(0,0)`, and maps `(999, 999)` on a
1080×2400 screen strictly below `(1080, 2400)`. -/
theorem c8_rel_to_abs (relX relY W H : Int) (hW : 0 < W) (hH : 0 < H) :
    convert_relative_to_absolute relX relY W H =
      (max 0 (min 999 relX) * W / 1000, max 0 (min 999 relY) * H / 1000) ∧
    0 ≤ (convert_relative_to_absolute relX relY W H).1 ∧
    (convert_relative_to_absolute relX relY W H).1 ≤ W - 1 ∧
    0 ≤ (convert_relative_to_absolute relX relY W H).2 ∧
    (convert_relative_to_absolute relX relY W H).2 ≤ H - 1 ∧
    convert_relative_to_absolute 0 0 W H = (0, 0) ∧
    (convert_relative_to_absolute 999 999 1080 2400).1 < 1080 ∧
    (convert_relative_to_absolute 999 999 1080 2400).2 < 2400 := by
  have hx := rel_to_abs_axis_bounds relX W hW
  have hy := rel_to_abs_axis_bounds relY H hH
  refine ⟨rfl, hx.1, hx.2, hy.1, hy.2, ?_, by decide, by decide⟩
  simp [convert_relative_to_absolute]

/-- Claim C8 witness: the bounds instantiated at an out-of-range input
`(relX, relY) = (1200, -5)` on a 1080×2400 screen (clamped to `(999, 0)`,
giving `(1078, 0)`). -/
theorem c8_rel_to_abs_witness :
    (0 < (1080 : Int) ∧ 0 < (2400 : Int)) ∧
    (convert_relative_to_absolute 1200 (-5) 1080 2400 =
      (max 0 (min 999 (1200 : Int)) * 1080 / 1000,
       max 0 (min 999 (-5 : Int)) * 2400 / 1000) ∧
    0 ≤ (convert_relative_to_absolute 1200 (-5) 1080 2400).1 ∧
    (convert_relative_to_absolute 1200 (-5) 1080 2400).1 ≤ 1080 - 1 ∧
    0 ≤ (convert_relative_to_absolute 1200 (-5) 1080 2400).2 ∧
    (convert_relative_to_absolute 1200 (-5) 1080 2400).2 ≤ 2400 - 1 ∧
    convert_relative_to_absolute 0 0 1080 2400 = (0, 0) ∧
    (convert_relative_to_absolute 999 999 1080 2400).1 < 1080 ∧
    (convert_relative_to_absolute 999 999 1080 2400).2 < 2400) :=
  ⟨⟨by decide, by decide⟩,
   c8_rel_to_abs 1200 (-5) 1080 2400 (by decide) (by decide)⟩

/-- Claim C9: `validate_coordinates` hard-clamps to
`[0, width-1] × [0, height-1]`, sets `was_corrected` exactly when the clamp
changed a component (soft-margin advisories never affect the returned
triple), and is idempotent: revalidating its own output returns the same
coordinates with `was_corrected = false`. -/
theorem c9_validate_idempotent (x y W H : Int) (hW : 0 < W) (hH : 0 < H) :
    (validate_coordinates x y W H).1 = max 0 (min (W - 1) x) ∧
    (validate_coordinates x y W H).2.1 = max 0 (min (H - 1) y) ∧
    ((validate_coordinates x y W H).2.2 = true ↔
      ((validate_coordinates x y W H).1 ≠ x ∨
        (validate_coordinates x y W H).2.1 ≠ y)) ∧
    validate_coordinates (validate_coordinates x y W H).1
        (validate_coordinates x y W H).2.1 W H =
      ((validate_coordinates x y W H).1,
        (validate_coordinates x y W H).2.1, false) := by
  simp only [validate_coordinates, decide_eq_true_eq]
  refine ⟨trivial, trivial, ?_, ?_⟩
  · constructor
    · rintro (h | h) <;> [left; right] <;> omega
    · rintro (h | h) <;> [left; right] <;> omega
  · have h1 : max 0 (min (W - 1) (max 0 (min (W - 1) x))) =
        max 0 (min (W - 1) x) := by omega
    have h2 : max 0 (min (H - 1) (max 0 (min (H - 1) y))) =
        max 0 (min (H - 1) y) := by omega
    simp only [h1, h2, Prod.mk.injEq, true_and]
    simp

/-- Claim C9 witness: validation and revalidation at the out-of-range input
`(-50, 5000)` on a 1080×2400 screen. -/
theorem c9_validate_idempotent_witness :
    (0 < (1080 : Int) ∧ 0 < (2400 : Int)) ∧
    ((validate_coordinates (-50) 5000 1080 2400).1 =
        max 0 (min (1080 - 1) (-50 : Int)) ∧
    (validate_coordinates (-50) 5000 1080 2400).2.1 =
        max 0 (min (2400 - 1) (5000 : Int)) ∧
    ((validate_coordinates (-50) 5000 1080 2400).2.2 = true ↔
      ((validate_coordinates (-50) 5000 1080 2400).1 ≠ -50 ∨
        (validate_coordinates (-50) 5000 1080 2400).2.1 ≠ 5000)) ∧
    validate_coordinates (validate_coordinates (-50) 5000 1080 2400).1
        (validate_coordinates (-50) 5000 1080 2400).2.1 1080 2400 =
      ((validate_coordinates (-50) 5000 1080 2400).1,
        (validate_coordinates (-50) 5000 1080 2400).2.1, false)) :=
  ⟨⟨by decide, by decide⟩,
   c9_validate_idempotent (-50) 5000 1080 2400 (by decide) (by decide)⟩

/-! ## ScreenInfoResolver — src/scripts/phone_view.py lines 74-163, 347-355 -/

/-- The `source` tag of a resolved `ScreenInfo` (the Python code stores the
strings "screenshot" / "adb" / "default"; the spec calls the middle one
`deviceQuery`). -/
inductive Source where
  | screenshot
  | adb
  | default
deriving DecidableEq, Repr

/-- The dictionary returned by `get_accurate_screen_info`.  All producing
paths yield nonnegative dimensions (regex digit groups, PIL image sizes, or
the hard-coded defaults), so the fields are `Nat`.  The `aspect_ratio` entry
is the float `width / height`; it is not carried here, but the
`ZeroDivisionError` it raises when `height = 0` is modelled at each
construction site. -/
structure ScreenInfo where
  width : Nat
  height : Nat
  density : Nat
  source : Source
deriving DecidableEq, Repr

/-- Outcomes of the four adb queries issued by the resolver.  Each field is
`.error ()` when the underlying `subprocess.run` raises (e.g. the adb binary
is missing); otherwise it carries the command's `ok` flag (where the code
checks it) and the result of the regex search over its stdout:
* `wm_size`: `ok` and the `"Physical size: (\d+)x(\d+)"` match;
* `dumpsys_displays`: the `"init=(\d+)x(\d+)"` match (`ok` is not checked);
* `dumpsys_window`: the `"mUnrestrictedScreen=\((\d+),(\d+)\)"` match
  (`ok` is not checked);
* `wm_density`: `ok` and the `"Physical density: (\d+)"` match. -/
structure AdbEnv where
  wm_size : Except Unit (Bool × Option (Nat × Nat))
  dumpsys_displays : Except Unit (Option (Nat × Nat))
  dumpsys_window : Except Unit (Option (Nat × Nat))
  wm_density : Except Unit (Bool × Option Nat)

/-- `parse_display_info` (phone_view.py lines 347-355): the `init=WxH` match
if present, else the default `(1080, 2400)`. -/
def parse_display_info (m : Option (Nat × Nat)) : Nat × Nat :=
  m.getD (1080, 2400)

/-- Methods 2 and 3 of `get_screen_size_via_adb` (phone_view.py lines
131-144): `dumpsys window displays`, whose parse counts only if it differs
from the default `(1080, 2400)`; else the `mUnrestrictedScreen` pattern of
`dumpsys window`; else the fallthrough default `(1080, 2400)`. -/
def get_screen_size_fallback (env : AdbEnv) : Except Unit (Nat × Nat) :=
  match env.dumpsys_displays with
  | .error e => .error e
  | .ok m2 =>
    if (parse_display_info m2).1 = 1080 ∧ (parse_display_info m2).2 = 2400 then
      match env.dumpsys_window with
      | .error e => .error e
      | .ok m3 =>
        match m3 with
        | some wh2 => .ok wh2
        | none => .ok (1080, 2400)
    else .ok (parse_display_info m2)

/-- `get_screen_size_via_adb` (phone_view.py lines 118-144): `wm size` if it
succeeded and matched, else the layered fallback of methods 2 and 3.
An exception from any command propagates to the caller. -/
def get_screen_size_via_adb (env : AdbEnv) : Except Unit (Nat × Nat) :=
  match env.wm_size with
  | .error e => .error e
  | .ok (ok1, m1) =>
    match (if ok1 then m1 else none) with
    | some wh => .ok wh
    | none => get_screen_size_fallback env

/-- `get_screen_density_via_adb` (phone_view.py lines 147-158): the
`Physical density` match of a successful `wm density`, else 420. -/
def get_screen_density_via_adb (env : AdbEnv) : Except Unit Nat :=
  match env.wm_density with
  | .error e => .error e
  | .ok (okd, md) =>
    match (if okd then md else none) with
    | some d => .ok d
    | none => .ok 420

/-- The hard-coded fallback dictionary of `get_accurate_screen_info`
(phone_view.py lines 109-115). -/
def default_screen_info : ScreenInfo :=
  { width := 1080, height := 2400, density := 420, source := .default }

/-- The adb phase of `get_accurate_screen_info` (phone_view.py lines
95-115): query size and density; any exception — including the
`ZeroDivisionError` raised by `aspect_ratio = width / height` when the
parsed height is 0 — is caught and yields the default dictionary. -/
def get_accurate_screen_info_adb (env : AdbEnv) : ScreenInfo :=
  match get_screen_size_via_adb env with
  | .error _ => default_screen_info
  | .ok wh =>
    match get_screen_density_via_adb env with
    | .error _ => default_screen_info
    | .ok d =>
      if wh.2 = 0 then default_screen_info
      else { width := wh.1, height := wh.2, density := d, source := .adb }

/-- `get_accurate_screen_info` (phone_view.py lines 74-115).  `shot` is
`some (w, h)` when a screenshot path was supplied, the file exists, PIL is
available and decoding succeeds with size `w × h`.  In that branch a density
query still runs inside the same `try`, so an exception from it (or the
`ZeroDivisionError` of `aspect_ratio` when `h = 0`) falls through to the adb
phase. -/
def get_accurate_screen_info (shot : Option (Nat × Nat)) (env : AdbEnv) :
    ScreenInfo :=
  match shot with
  | some wh =>
    match get_screen_density_via_adb env with
    | .error _ => get_accurate_screen_info_adb env
    | .ok d =>
      if wh.2 = 0 then get_accurate_screen_info_adb env
      else { width := wh.1, height := wh.2, density := d, source := .screenshot }
  | none => get_accurate_screen_info_adb env

/-! ### Claims C2, C3 -/

/-- Claim C2, counterexample: when the screenshot is unusable and every
device-query command runs successfully but none of the patterns matches,
the resolver returns the default numbers `(1080, 2400, 420)` tagged with the
device-query source `"adb"` — not `"default"` as claimed (the `"default"`
tag is reached only via an exception, because `get_screen_size_via_adb`
returns its fallback `(1080, 2400)` instead of raising). -/
theorem c2_counterexample :
    get_accurate_screen_info none
        ⟨.ok (true, none), .ok none, .ok none, .ok (true, none)⟩ =
      { width := 1080, height := 2400, density := 420, source := .adb } ∧
    Source.adb ≠ Source.default := by
  decide

/-- Claim C2 (amended): when the screenshot strategy fails and no
device-query pattern yields a signal but the query commands themselves run
(raise no exception), the resolver returns exactly `(1080, 2400, 420)`
tagged with the device-query source `"adb"`; the `"default"` tag appears
only when the device query raises.  When the screenshot strategy fails and
the `wm size` strategy succeeds (with a nonzero height and a working density
query), the resolver returns that strategy's values tagged `"adb"`. -/
theorem c2_fallback (b1 b2 : Bool) (w h d : Nat) (env env2 : AdbEnv)
    (h1 : env.wm_size = .ok (b1, none))
    (h2 : env.dumpsys_displays = .ok none)
    (h3 : env.dumpsys_window = .ok none)
    (h4 : env.wm_density = .ok (b2, none))
    (g1 : env2.wm_size = .ok (true, some (w, h)))
    (g2 : env2.wm_density = .ok (true, some d))
    (hh : h ≠ 0) :
    get_accurate_screen_info none env =
      { width := 1080, height := 2400, density := 420, source := .adb } ∧
    get_accurate_screen_info none env2 =
      { width := w, height := h, density := d, source := .adb } := by
  constructor
  · simp only [get_accurate_screen_info, get_accurate_screen_info_adb,
      get_screen_size_via_adb, get_screen_size_fallback,
      get_screen_density_via_adb, h1, h2, h3, h4,
      parse_display_info, Option.getD]
    cases b1 <;> cases b2 <;> simp
  · simp only [get_accurate_screen_info, get_accurate_screen_info_adb,
      get_screen_size_via_adb, get_screen_density_via_adb, g1, g2]
    simp [hh]

/-- Claim C2 witness: both halves of the amended fallback claim at concrete
environments (all patterns silent / `wm size` reporting 1440×3200 with
density 560). -/
theorem c2_fallback_witness :
    ((⟨.ok (true, none), .ok none, .ok none, .ok (false, none)⟩ :
        AdbEnv).wm_size = .ok (true, none) ∧
     (⟨.ok (true, none), .ok none, .ok none, .ok (false, none)⟩ :
        AdbEnv).dumpsys_displays = .ok none ∧
     (⟨.ok (true, none), .ok none, .ok none, .ok (false, none)⟩ :
        AdbEnv).dumpsys_window = .ok none ∧
     (⟨.ok (true, none), .ok none, .ok none, .ok (false, none)⟩ :
        AdbEnv).wm_density = .ok (false, none) ∧
     (⟨.ok (true, some (1440, 3200)), .ok none, .ok none,
        .ok (true, some 560)⟩ : AdbEnv).wm_size = .ok (true, some (1440, 3200)) ∧
     (⟨.ok (true, some (1440, 3200)), .ok none, .ok none,
        .ok (true, some 560)⟩ : AdbEnv).wm_density = .ok (true, some 560) ∧
     (3200 : Nat) ≠ 0) ∧
    (get_accurate_screen_info none
        ⟨.ok (true, none), .ok none, .ok none, .ok (false, none)⟩ =
      { width := 1080, height := 2400, density := 420, source := .adb } ∧
     get_accurate_screen_info none
        ⟨.ok (true, some (1440, 3200)), .ok none, .ok none,
          .ok (true, some 560)⟩ =
      { width := 1440, height := 3200, density := 560, source := .adb }) :=
  ⟨⟨rfl, rfl, rfl, rfl, rfl, rfl, by decide⟩,
   c2_fallback true false 1440 3200 560 _ _ rfl rfl rfl rfl rfl rfl
     (by decide)⟩

/-- Claim C3, counterexample: the device-query regexes accept 0 (digit
groups), so for the outcome where `wm size` succeeds and matches
`"Physical size: 0x5"`, the resolver returns a record with `width = 0`,
violating the claimed invariant `width > 0`. -/
theorem c3_counterexample :
    get_accurate_screen_info none
        ⟨.ok (true, some (0, 5)), .ok none, .ok none, .ok (true, some 420)⟩ =
      { width := 0, height := 5, density := 420, source := .adb } ∧
    ¬ (0 < (get_accurate_screen_info none
        ⟨.ok (true, some (0, 5)), .ok none, .ok none,
          .ok (true, some 420)⟩).width) := by
  decide

/-- Every dimension or density the environment can feed the resolver is
positive: the screenshot size and each regex match carry only nonzero
numbers. -/
def env_positive (shot : Option (Nat × Nat)) (env : AdbEnv) : Prop :=
  (∀ w h, shot = some (w, h) → 0 < w ∧ 0 < h) ∧
  (∀ b w h, env.wm_size = .ok (b, some (w, h)) → 0 < w ∧ 0 < h) ∧
  (∀ w h, env.dumpsys_displays = .ok (some (w, h)) → 0 < w ∧ 0 < h) ∧
  (∀ w h, env.dumpsys_window = .ok (some (w, h)) → 0 < w ∧ 0 < h) ∧
  (∀ b d, env.wm_density = .ok (b, some d) → 0 < d)

lemma get_screen_density_via_adb_pos (env : AdbEnv)
    (hp : ∀ b d, env.wm_density = .ok (b, some d) → 0 < d) :
    ∀ d, get_screen_density_via_adb env = .ok d → 0 < d := by
  intro d hd
  unfold get_screen_density_via_adb at hd
  split at hd
  · cases hd
  · rename_i okd md heq
    split at hd
    · rename_i d0 hm
      cases okd with
      | false => simp at hm
      | true =>
        simp only [if_pos rfl] at hm
        subst hm
        simp only [Except.ok.injEq] at hd
        subst hd
        exact hp true d0 heq
    · simp only [Except.ok.injEq] at hd
      omega

lemma get_screen_size_fallback_pos (env : AdbEnv)
    (hp2 : ∀ w h, env.dumpsys_displays = .ok (some (w, h)) → 0 < w ∧ 0 < h)
    (hp3 : ∀ w h, env.dumpsys_window = .ok (some (w, h)) → 0 < w ∧ 0 < h) :
    ∀ w h, get_screen_size_fallback env = .ok (w, h) → 0 < w ∧ 0 < h := by
  intro w h hwh
  obtain ⟨f1, f2, f3, f4⟩ := env
  unfold get_screen_size_fallback at hwh
  cases f2 with
  | error e => simp at hwh
  | ok m2 =>
    cases m2 with
    | none =>
      simp only [parse_display_info, Option.getD, and_self, if_pos] at hwh
      cases f3 with
      | error e => simp at hwh
      | ok m3 =>
        cases m3 with
        | none =>
          simp only [Except.ok.injEq, Prod.mk.injEq] at hwh
          omega
        | some wh3 =>
          obtain ⟨w3, h3⟩ := wh3
          simp only [Except.ok.injEq, Prod.mk.injEq] at hwh
          have := hp3 w3 h3 rfl
          omega
    | some wh2 =>
      obtain ⟨w2, h2⟩ := wh2
      have hpos := hp2 w2 h2 rfl
      simp only [parse_display_info, Option.getD] at hwh
      split at hwh
      · cases f3 with
        | error e => simp at hwh
        | ok m3 =>
          cases m3 with
          | none =>
            simp only [Except.ok.injEq, Prod.mk.injEq] at hwh
            omega
          | some wh3 =>
            obtain ⟨w3, h3⟩ := wh3
            simp only [Except.ok.injEq, Prod.mk.injEq] at hwh
            have := hp3 w3 h3 rfl
            omega
      · simp only [Except.ok.injEq, Prod.mk.injEq] at hwh
        omega

lemma get_screen_size_via_adb_pos (env : AdbEnv)
    (hp1 : ∀ b w h, env.wm_size = .ok (b, some (w, h)) → 0 < w ∧ 0 < h)
    (hp2 : ∀ w h, env.dumpsys_displays = .ok (some (w, h)) → 0 < w ∧ 0 < h)
    (hp3 : ∀ w h, env.dumpsys_window = .ok (some (w, h)) → 0 < w ∧ 0 < h) :
    ∀ w h, get_screen_size_via_adb env = .ok (w, h) → 0 < w ∧ 0 < h := by
  intro w h hwh
  obtain ⟨f1, f2, f3, f4⟩ := env
  unfold get_screen_size_via_adb at hwh
  cases f1 with
  | error e => simp at hwh
  | ok p1 =>
    obtain ⟨ok1, m1⟩ := p1
    cases ok1 with
    | false =>
      simp only [Bool.false_eq_true, if_false] at hwh
      exact get_screen_size_fallback_pos ⟨.ok (false, m1), f2, f3, f4⟩
        hp2 hp3 w h hwh
    | true =>
      simp only [if_true] at hwh
      cases m1 with
      | none =>
        exact get_screen_size_fallback_pos ⟨.ok (true, none), f2, f3, f4⟩
          hp2 hp3 w h hwh
      | some wh1 =>
        obtain ⟨w1, h1v⟩ := wh1
        simp only [Except.ok.injEq, Prod.mk.injEq] at hwh
        have := hp1 true w1 h1v rfl
        omega

lemma get_accurate_screen_info_adb_pos (env : AdbEnv)
    (hp1 : ∀ b w h, env.wm_size = .ok (b, some (w, h)) → 0 < w ∧ 0 < h)
    (hp2 : ∀ w h, env.dumpsys_displays = .ok (some (w, h)) → 0 < w ∧ 0 < h)
    (hp3 : ∀ w h, env.dumpsys_window = .ok (some (w, h)) → 0 < w ∧ 0 < h)
    (hp4 : ∀ b d, env.wm_density = .ok (b, some d) → 0 < d) :
    0 < (get_accurate_screen_info_adb env).width ∧
    0 < (get_accurate_screen_info_adb env).height ∧
    0 < (get_accurate_screen_info_adb env).density := by
  have hdefpos : 0 < default_screen_info.width ∧
      0 < default_screen_info.height ∧ 0 < default_screen_info.density := by
    decide
  unfold get_accurate_screen_info_adb
  cases hs : get_screen_size_via_adb env with
  | error e => exact hdefpos
  | ok wh =>
    obtain ⟨w, h⟩ := wh
    have hwh := get_screen_size_via_adb_pos env hp1 hp2 hp3 w h hs
    cases hd : get_screen_density_via_adb env with
    | error e => exact hdefpos
    | ok d =>
      have hdp := get_screen_density_via_adb_pos env hp4 d hd
      have hne : ¬ h = 0 := by have := hwh.2; omega
      simp only [if_neg hne]
      exact ⟨hwh.1, hwh.2, hdp⟩

/-- Claim C3 (amended): the resolver is total — every screenshot/device-query
outcome yields a `ScreenInfo` record (the Lean embedding is a total
function) — and the invariant `width > 0 ∧ height > 0 ∧ density > 0` holds
provided every dimension or density the environment supplies (screenshot
size, regex matches) is positive; without that proviso a zero regex match
such as `"Physical size: 0x5"` leaks a zero width (see the
counterexample). -/
theorem c3_resolver_positive (shot : Option (Nat × Nat)) (env : AdbEnv)
    (hpos : env_positive shot env) :
    0 < (get_accurate_screen_info shot env).width ∧
    0 < (get_accurate_screen_info shot env).height ∧
    0 < (get_accurate_screen_info shot env).density := by
  obtain ⟨hp0, hp1, hp2, hp3, hp4⟩ := hpos
  have hadb := get_accurate_screen_info_adb_pos env hp1 hp2 hp3 hp4
  unfold get_accurate_screen_info
  cases shot with
  | none => exact hadb
  | some wh =>
    obtain ⟨w, h⟩ := wh
    have hwh := hp0 w h rfl
    cases hd : get_screen_density_via_adb env with
    | error e => exact hadb
    | ok d =>
      have hdp := get_screen_density_via_adb_pos env hp4 d hd
      have hne : ¬ h = 0 := by have := hwh.2; omega
      simp only [if_neg hne]
      exact ⟨hwh.1, hwh.2, hdp⟩

/-- Claim C3 witness: the amended invariant at the concrete outcome where the
screenshot decodes as 1080×2400 and the density query reports 420. -/
theorem c3_resolver_positive_witness :
    env_positive (some (1080, 2400))
      ⟨.ok (false, none), .ok none, .ok none, .ok (true, some 420)⟩ ∧
    (0 < (get_accurate_screen_info (some (1080, 2400))
        ⟨.ok (false, none), .ok none, .ok none, .ok (true, some 420)⟩).width ∧
     0 < (get_accurate_screen_info (some (1080, 2400))
        ⟨.ok (false, none), .ok none, .ok none, .ok (true, some 420)⟩).height ∧
     0 < (get_accurate_screen_info (some (1080, 2400))
        ⟨.ok (false, none), .ok none, .ok none, .ok (true, some 420)⟩).density) := by
  have hp : env_positive (some (1080, 2400))
      ⟨.ok (false, none), .ok none, .ok none, .ok (true, some 420)⟩ := by
    refine ⟨?_, ?_, ?_, ?_, ?_⟩
    · intro w h hw
      simp only [Option.some.injEq, Prod.mk.injEq] at hw
      omega
    · intro b w h hw
      simp only [Except.ok.injEq, Prod.mk.injEq] at hw
      simp at hw
    · intro w h hw
      simp at hw
    · intro w h hw
      simp at hw
    · intro b d hw
      simp only [Except.ok.injEq, Prod.mk.injEq, Option.some.injEq] at hw
      omega
  exact ⟨hp, c3_resolver_positive _ _ hp⟩

/-! ## NarrativeElementExtractor — src/scripts/phone_view.py lines 255-344

The extractor scans the narrative line by line.  Each physical line is
classified by the `elif` chain of the source; the regex layer is abstracted:
a `Line` value records which branch of the chain the line's text selects and
the captured groups (the marker strings `🎯 相对坐标：` and `🎯 坐标：` are
disjoint substring guards, so each line selects at most one branch, in the
source's priority order).  Coordinate digits come from `(\d+)` groups and
are therefore `Nat`. -/

/-- The matched group of the `(高|中|低)优先级` priority marker on an
element-title line. -/
inductive Priority where
  | high
  | medium
  | low
deriving DecidableEq, Repr

/-- The `priority_map` dictionary (phone_view.py line 300):
高 ↦ high, 中 ↦ medium, 低 ↦ low. -/
def priority_map : Priority → String
  | .high => "high"
  | .medium => "medium"
  | .low => "low"

/-- One classified narrative line:
* `header desc prio` — a line matching `^\d+\.` with `**` present; `desc` is
  the `**…**` capture (or the stripped line when the capture fails), `prio`
  the optional priority marker;
* `relCoord m` — a line containing `🎯 相对坐标：`, with `m` the regex match;
* `absCoord m` — a line containing `🎯 坐标：` (legacy absolute marker);
* `command m` — a line containing `💻 命令：`;
* `other` — any other line. -/
inductive Line where
  | header (description : String) (priority : Option Priority)
  | relCoord (m : Option (Nat × Nat))
  | absCoord (m : Option (Nat × Nat))
  | command (m : Option String)
  | other
deriving DecidableEq, Repr

/-- An element dictionary accumulated by the extractor.  A key absent from
the Python dict is `none`.  The dict is non-empty exactly when a header line
has been seen, so the "current element" of the scanner is
`Option Element` (`none` is the initial empty, falsy dict). -/
structure Element where
  description : String
  type : String
  priority : String
  relative_coordinates : Option (Int × Int) := none
  coordinates : Option (Int × Int) := none
  command : Option String := none
deriving DecidableEq, Repr

/-- One step of the scanning loop of `parse_relative_coordinates_from_text`
(phone_view.py lines 282-338): the state is the current element (if any)
and the flushed elements in narrative order. -/
def processLine (screen_info : ScreenInfo) (st : Option Element × List Element)
    (l : Line) : Option Element × List Element :=
  match l with
  | .header desc prio =>
      let elements := match st.1 with
        | some e => st.2 ++ [e]
        | none => st.2
      (some { description := desc, type := "unknown",
              priority := match prio with
                | some p => priority_map p
                | none => "medium" },
       elements)
  | .relCoord m =>
      match st.1, m with
      | some e, some (rx, ry) =>
          (some { e with
                    relative_coordinates := some ((rx : Int), (ry : Int)),
                    coordinates := some (convert_relative_to_absolute rx ry
                      (screen_info.width : Int) (screen_info.height : Int)) },
           st.2)
      | _, _ => st
  | .absCoord m =>
      match st.1, m with
      | some e, some (ax, ay) =>
          if e.coordinates = none then
            (some { e with
                      coordinates := some ((ax : Int), (ay : Int)),
                      relative_coordinates := some (convert_absolute_to_relative
                        ax ay (screen_info.width : Int) (screen_info.height : Int)) },
             st.2)
          else st
      | _, _ => st
  | .command m =>
      match st.1, m with
      | some e, some c => (some { e with command := some c }, st.2)
      | _, _ => st
  | .other => st

/-- `parse_relative_coordinates_from_text` (phone_view.py lines 255-344):
fold the scanner over the classified lines, then flush the pending element. -/
def parse_relative_coordinates_from_text (lines : List Line)
    (screen_info : ScreenInfo) : List Element :=
  let st := lines.foldl (processLine screen_info) (none, [])
  match st.1 with
  | some e => st.2 ++ [e]
  | none => st.2

/-! ### Claims C4, C10 -/

/-- Claim C4: in the extractor, a legacy absolute-coordinate line is a no-op
when the current element already carries a coordinate; on a coordinate-free
element it sets the absolute coordinate and back-fills the relative one via
the inverse conversion; a relative-coordinate line always overwrites both
fields (relative first, absolute derived); consequently a block containing
both marker kinds ends up with the relative line's values in either order. -/
theorem c4_coordinate_precedence (si : ScreenInfo) (es : List Element)
    (e : Element) (p : Int × Int) (m : Option (Nat × Nat))
    (ax ay rx ry : Nat) (d : String) (pr : Option Priority) :
    processLine si (some { e with coordinates := some p }, es) (.absCoord m) =
      (some { e with coordinates := some p }, es) ∧
    processLine si (some { e with coordinates := none }, es)
        (.absCoord (some (ax, ay))) =
      (some { e with
                coordinates := some ((ax : Int), (ay : Int)),
                relative_coordinates := some (convert_absolute_to_relative
                  ax ay (si.width : Int) (si.height : Int)) }, es) ∧
    processLine si (some e, es) (.relCoord (some (rx, ry))) =
      (some { e with
                relative_coordinates := some ((rx : Int), (ry : Int)),
                coordinates := some (convert_relative_to_absolute rx ry
                  (si.width : Int) (si.height : Int)) }, es) ∧
    parse_relative_coordinates_from_text
        [.header d pr, .relCoord (some (rx, ry)), .absCoord (some (ax, ay))] si =
      parse_relative_coordinates_from_text
        [.header d pr, .absCoord (some (ax, ay)), .relCoord (some (rx, ry))] si ∧
    parse_relative_coordinates_from_text
        [.header d pr, .relCoord (some (rx, ry)), .absCoord (some (ax, ay))] si =
      [{ description := d, type := "unknown",
         priority := match pr with
           | some p => priority_map p
           | none => "medium",
         relative_coordinates := some ((rx : Int), (ry : Int)),
         coordinates := some (convert_relative_to_absolute rx ry
           (si.width : Int) (si.height : Int)),
         command := none }] := by
  refine ⟨?_, rfl, rfl, rfl, rfl⟩
  cases m with
  | none => rfl
  | some q =>
    obtain ⟨qx, qy⟩ := q
    simp [processLine]

/-- An element produced by the extractor carries its relative and absolute
coordinates together: either both fields are populated or neither is. -/
def coords_paired (e : Element) : Prop :=
  e.relative_coordinates.isSome = e.coordinates.isSome

lemma processLine_paired (si : ScreenInfo) (st : Option Element × List Element)
    (l : Line) (h1 : ∀ e ∈ st.2, coords_paired e)
    (h2 : ∀ e, st.1 = some e → coords_paired e) :
    (∀ e ∈ (processLine si st l).2, coords_paired e) ∧
    (∀ e, (processLine si st l).1 = some e → coords_paired e) := by
  obtain ⟨cur, es⟩ := st
  cases l with
  | header d p =>
    constructor
    · intro e he
      cases cur with
      | none => exact h1 e he
      | some e0 =>
        simp only [processLine, List.mem_append, List.mem_singleton] at he
        cases he with
        | inl h => exact h1 e h
        | inr h => rw [h]; exact h2 e0 rfl
    · intro e he
      simp only [processLine, Option.some.injEq] at he
      subst he
      rfl
  | relCoord m =>
    cases cur with
    | none => exact ⟨h1, h2⟩
    | some e0 =>
      cases m with
      | none => exact ⟨h1, h2⟩
      | some q =>
        obtain ⟨rx, ry⟩ := q
        refine ⟨h1, ?_⟩
        intro e he
        simp only [processLine, Option.some.injEq] at he
        subst he
        rfl
  | absCoord m =>
    cases cur with
    | none => exact ⟨h1, h2⟩
    | some e0 =>
      cases m with
      | none => exact ⟨h1, h2⟩
      | some q =>
        obtain ⟨ax, ay⟩ := q
        by_cases hc : e0.coordinates = none
        · refine ⟨?_, ?_⟩
          · intro e he
            simp only [processLine, if_pos hc] at he
            exact h1 e he
          · intro e he
            simp only [processLine, if_pos hc, Option.some.injEq] at he
            subst he
            rfl
        · refine ⟨?_, ?_⟩
          · intro e he
            simp only [processLine, if_neg hc] at he
            exact h1 e he
          · intro e he
            simp only [processLine, if_neg hc] at he
            exact h2 e he
  | command m =>
    cases cur with
    | none => exact ⟨h1, h2⟩
    | some e0 =>
      cases m with
      | none => exact ⟨h1, h2⟩
      | some c =>
        refine ⟨h1, ?_⟩
        intro e he
        simp only [processLine, Option.some.injEq] at he
        subst he
        have := h2 e0 rfl
        simpa [coords_paired] using this
  | other => exact ⟨h1, h2⟩

lemma foldl_paired (si : ScreenInfo) (lines : List Line)
    (st : Option Element × List Element)
    (h1 : ∀ e ∈ st.2, coords_paired e)
    (h2 : ∀ e, st.1 = some e → coords_paired e) :
    (∀ e ∈ (lines.foldl (processLine si) st).2, coords_paired e) ∧
    (∀ e, (lines.foldl (processLine si) st).1 = some e → coords_paired e) := by
  induction lines generalizing st with
  | nil => exact ⟨h1, h2⟩
  | cons l ls ih =>
    have hstep := processLine_paired si st l h1 h2
    exact ih (processLine si st l) hstep.1 hstep.2

/-- Claim C10: every element returned by the extractor has its relative and
absolute coordinate fields populated together — both present or both
absent. -/
theorem c10_coordinates_paired (lines : List Line) (si : ScreenInfo) :
    ∀ e ∈ parse_relative_coordinates_from_text lines si,
      e.relative_coordinates.isSome = e.coordinates.isSome := by
  intro e he
  have hfold := foldl_paired si lines (none, [])
    (by intro e he; cases he) (by intro e he; cases he)
  simp only [parse_relative_coordinates_from_text] at he
  cases hcur : (lines.foldl (processLine si) (none, [])).1 with
  | none =>
    rw [hcur] at he
    exact hfold.1 e he
  | some e0 =>
    rw [hcur] at he
    simp only [List.mem_append, List.mem_singleton] at he
    cases he with
    | inl h => exact hfold.1 e h
    | inr h => exact h ▸ hfold.2 e0 hcur

/-- Claim C10 witness: the pairing invariant on the concrete narrative
consisting of one header line followed by one relative-coordinate line, on a
1080×2400 screen. -/
theorem c10_coordinates_paired_witness :
    ({ description := "搜索框", type := "unknown", priority := "high",
       relative_coordinates := some ((500 : Int), (150 : Int)),
       coordinates := some ((540 : Int), (360 : Int)),
       command := none } : Element) ∈
      parse_relative_coordinates_from_text
        [.header "搜索框" (some .high), .relCoord (some (500, 150))]
        { width := 1080, height := 2400, density := 420, source := .default } ∧
    (({ description := "搜索框", type := "unknown", priority := "high",
        relative_coordinates := some ((500 : Int), (150 : Int)),
        coordinates := some ((540 : Int), (360 : Int)),
        command := none } : Element).relative_coordinates.isSome =
      ({ description := "搜索框", type := "unknown", priority := "high",
         relative_coordinates := some ((500 : Int), (150 : Int)),
         coordinates := some ((540 : Int), (360 : Int)),
         command := none } : Element).coordinates.isSome) :=
  ⟨by decide,
   c10_coordinates_paired
     [.header "搜索框" (some .high), .relCoord (some (500, 150))]
     { width := 1080, height := 2400, density := 420, source := .default }
     _ (by decide)⟩

/-! ## AutoViewOrchestrator — src/scripts/phone_control.py lines 198-308,
474-545

Wall-clock time is abstracted: `elapsed` is the value of
`time.time() - start_time` at the moment the observation budget is computed
(phone_control.py line 490); it already includes the post-action wait delay,
because `time.sleep(args.wait)` runs before that line.  Durations are exact
rationals; Python's `int()` on the (nonnegative) remaining budget is the
floor. -/

/-- Outcome of the `phone_view.py describe` subprocess launched by
`_auto_view_screen`:
* `success desc` — return code 0; `desc` abstracts the description text that
  the JSON/stdout post-processing extracts;
* `failure rc err td` — nonzero return code `rc` with combined error output
  `err`; `td` is the result of the code's lowercased substring test
  `"timeout" in err or "timed out" in err`;
* `timedOut` — `subprocess.TimeoutExpired` was raised;
* `notFound p` — `FileNotFoundError`: no `phone_view.py` at path `p`;
* `otherError msg` — any other exception. -/
inductive ViewOutcome where
  | success (description : String)
  | failure (returncode : Int) (error_output : String) (timeout_detected : Bool)
  | timedOut
  | notFound (path : String)
  | otherError (msg : String)
deriving DecidableEq, Repr

/-- The dictionary `_auto_view_screen` returns in JSON mode.  A key the code
does not put in the dictionary is `none`. -/
structure AutoViewDict where
  ok : Bool
  description : Option String := none
  error : Option String := none
  returncode : Option Int := none
  timeout_error : Option Bool := none
  suggested_timeout : Option Int := none
deriving DecidableEq, Repr

/-- The Python return value of `_auto_view_screen`: a dict in JSON mode, a
description string in text mode on success, `None` in text mode on failure
(after printing an advisory — the printed text is not modelled). -/
inductive AutoViewRet where
  | dict (d : AutoViewDict)
  | text (s : String)
  | noneRet
deriving DecidableEq, Repr

/-- `_auto_view_screen` (phone_control.py lines 198-308) as a function of
its timeout argument, output mode and subprocess outcome. -/
def auto_view_screen (timeout : Int) (as_json : Bool) (view : ViewOutcome) :
    AutoViewRet :=
  match view with
  | .success desc =>
      if as_json then .dict { ok := true, description := some desc }
      else .text desc
  | .failure rc err td =>
      if as_json then
        .dict { ok := false, error := some err, returncode := some rc,
                timeout_error := some td,
                suggested_timeout := if td then some (timeout * 2) else none }
      else .noneRet
  | .timedOut =>
      if as_json then
        .dict { ok := false, timeout_error := some true,
                error := some s!"Auto-view timeout after {timeout} seconds",
                suggested_timeout := some (timeout * 2) }
      else .noneRet
  | .notFound p =>
      if as_json then
        .dict { ok := false, error := some s!"phone_view.py not found at {p}" }
      else .noneRet
  | .otherError msg =>
      if as_json then .dict { ok := false, error := some msg }
      else .noneRet

/-- The result of one orchestrated invocation. -/
structure ExecOutcome where
  observed : Bool
  budget : Option Int
  view_result : Option AutoViewRet
  exit_code : Int
deriving DecidableEq, Repr

/-- `auto_view_commands` (phone_control.py line 483): the fixed set of
screen-mutating subcommands. -/
def auto_view_commands : List String := ["tap", "swipe", "key", "text", "app"]

/-- `execute_with_auto_view` (phone_control.py lines 474-503): run the device
action (outcome `ok`/`rc` given), and — only when auto-view is enabled, the
action succeeded and the subcommand is screen-mutating — wait, recompute the
remaining observation budget `int(max(10, timeout - elapsed))`, and invoke
the observer with it.  The exit code is `0 if result.ok else
result.returncode or 1`, independent of the observation. -/
def execute_with_auto_view (auto_view : Bool) (cmd : String) (as_json : Bool)
    (timeout : ℚ) (ok : Bool) (rc : Int) (elapsed : ℚ) (view : ViewOutcome) :
    ExecOutcome :=
  let exit_code : Int := if ok then 0 else if rc = 0 then 1 else rc
  if auto_view = true ∧ ok = true ∧ cmd ∈ auto_view_commands then
    let remaining_timeout : ℚ := max 10 (timeout - elapsed)
    let b : Int := ⌊remaining_timeout⌋
    { observed := true, budget := some b,
      view_result := some (auto_view_screen b as_json view),
      exit_code := exit_code }
  else
    { observed := false, budget := none, view_result := none,
      exit_code := exit_code }

/-- The subcommands of `phone_control.py` (lines 372-403). -/
inductive Command where
  | connect
  | devices
  | tap
  | swipe
  | key
  | text
  | app
  | stop
  | shell
deriving DecidableEq, Repr

/-- The string name under which a subcommand appears as `args.cmd`. -/
def Command.name : Command → String
  | .connect => "connect"
  | .devices => "devices"
  | .tap => "tap"
  | .swipe => "swipe"
  | .key => "key"
  | .text => "text"
  | .app => "app"
  | .stop => "stop"
  | .shell => "shell"

/-- The dispatch of `main` (phone_control.py lines 505-545): `connect`,
`devices`, `stop` and `shell` print the result directly and never observe
(in text mode a failure exits with `rc or 1`; in JSON mode `main` returns
0); `tap`, `swipe`, `key`, `text` and `app` go through
`execute_with_auto_view`. -/
def main_exec (c : Command) (auto_view as_json : Bool) (timeout : ℚ)
    (ok : Bool) (rc : Int) (elapsed : ℚ) (view : ViewOutcome) : ExecOutcome :=
  match c with
  | .connect | .devices | .stop | .shell =>
      { observed := false, budget := none, view_result := none,
        exit_code := if ok then 0 else if as_json then 0
          else if rc = 0 then 1 else rc }
  | .tap | .swipe | .key | .text | .app =>
      execute_with_auto_view auto_view c.name as_json timeout ok rc elapsed view

/-! ### Claims C5, C6, C7 -/

/-- Claim C5: the observation budget is
`max(10, configuredTimeout - elapsedSinceActionStart)` with the wait delay
already inside `elapsed` and not subtracted again; at configured timeout 30
and elapsed 3 (which includes the 1.5 s wait) the budget is 27, and it
differs from the double-subtracted `max(10, 30 - 3 - 1.5)`. -/
theorem c5_timeout_budget (as_json : Bool) (timeout elapsed : ℚ) (rc : Int)
    (view : ViewOutcome) :
    (execute_with_auto_view true "tap" as_json timeout true rc elapsed
        view).budget = some ⌊max 10 (timeout - elapsed)⌋ ∧
    (execute_with_auto_view true "tap" as_json 30 true rc 3 view).budget =
      some 27 ∧
    (execute_with_auto_view true "tap" as_json 30 true rc 3 view).budget ≠
      some ⌊max 10 ((30 : ℚ) - 3 - 1.5)⌋ := by
  have hcond : (true = true ∧ true = true ∧ "tap" ∈ auto_view_commands) := by
    refine ⟨rfl, rfl, ?_⟩
    simp [auto_view_commands]
  have h30 : ⌊max 10 ((30 : ℚ) - 3)⌋ = (27 : Int) := by norm_num
  have h255 : ⌊max 10 ((30 : ℚ) - 3 - 1.5)⌋ = (25 : Int) := by
    norm_num
  refine ⟨?_, ?_, ?_⟩
  · simp [execute_with_auto_view, hcond]
  · simp [execute_with_auto_view, hcond, h30]
  · simp [execute_with_auto_view, hcond, h30, h255]

/-- Claim C6: observation happens exactly when auto-view is enabled, the
device action succeeded, and the subcommand is one of the fixed
screen-mutating five; in particular `connect`, `devices`, `stop` and
`shell`, as well as any failed action, never trigger it. -/
theorem c6_observation_gating (c : Command) (auto_view as_json : Bool)
    (timeout : ℚ) (ok : Bool) (rc : Int) (elapsed : ℚ) (view : ViewOutcome) :
    (main_exec c auto_view as_json timeout ok rc elapsed view).observed =
      (auto_view && ok &&
        decide (c ∈ ([.tap, .swipe, .key, .text, .app] : List Command))) := by
  cases c <;> cases auto_view <;> cases ok <;>
    simp [main_exec, execute_with_auto_view, auto_view_commands, Command.name]

/-- Claim C7, counterexample: with configured timeout 30 and elapsed 3, a
timeout-flagged observation failure surfaces `suggested_timeout = 54` —
twice the recomputed observation budget 27, not twice the configured
timeout (`2 × 30 = 60`). -/
theorem c7_counterexample :
    (execute_with_auto_view true "tap" true 30 true 0 3
        (.failure 1 "Auto-view failed: timed out" true)).view_result =
      some (.dict
        { ok := false,
          error := some "Auto-view failed: timed out", returncode := some 1,
          timeout_error := some true, suggested_timeout := some 54 }) ∧
    (54 : Int) ≠ 2 * 30 := by
  constructor
  · have hcond : (true = true ∧ true = true ∧ "tap" ∈ auto_view_commands) := by
      refine ⟨rfl, rfl, ?_⟩
      simp [auto_view_commands]
    have h30 : ⌊max 10 ((30 : ℚ) - 3)⌋ = (27 : Int) := by norm_num
    simp [execute_with_auto_view, auto_view_screen, hcond, h30]
  · decide

/-- Claim C7 (amended): when the device action succeeds, the invocation's
exit code is 0 whatever the observation outcome — observation failures only
annotate the result — and a detected observation timeout surfaces a
suggested retry timeout of twice the observation budget actually passed to
the observer (the recomputed `int(max(10, timeout - elapsed))`), which
coincides with twice the configured timeout only when that budget equals
the configured timeout. -/
theorem c7_observation_advisory (c : Command) (as_json auto_view : Bool)
    (timeout elapsed : ℚ) (rc rc2 : Int) (err : String) (view : ViewOutcome) :
    (main_exec c auto_view as_json timeout true rc elapsed view).exit_code =
      0 ∧
    (execute_with_auto_view true "tap" true timeout true rc elapsed
        (.failure rc2 err true)).view_result =
      some (.dict
        { ok := false, error := some err, returncode := some rc2,
          timeout_error := some true,
          suggested_timeout := some (⌊max 10 (timeout - elapsed)⌋ * 2) }) ∧
    (execute_with_auto_view true "tap" true timeout true rc elapsed
        .timedOut).view_result =
      some (.dict
        { ok := false, timeout_error := some true,
          error :=
            some s!"Auto-view timeout after {⌊max 10 (timeout - elapsed)⌋} seconds",
          suggested_timeout := some (⌊max 10 (timeout - elapsed)⌋ * 2) }) := by
  have hcond : (true = true ∧ true = true ∧ "tap" ∈ auto_view_commands) := by
    refine ⟨rfl, rfl, ?_⟩
    simp [auto_view_commands]
  refine ⟨?_, ?_, ?_⟩
  · cases c <;> cases auto_view <;>
      simp [main_exec, execute_with_auto_view, auto_view_screen,
        auto_view_commands, Command.name]
  · simp [execute_with_auto_view, auto_view_screen, hcond]
  · simp [execute_with_auto_view, auto_view_screen, hcond]

end PhoneSkill
